import Mathlib

/-!
Verification development for the Telegram channel-automation server
(`src/server.js`).  The server is an Express application holding a
process-wide `sessions` map from `"${phoneNumber}_${apiId}"` keys to
Telegram client handles, and exposing handlers for connecting, channel
discovery, subscription, and a recurring background commenter.

The remote protocol (the `telegram` library) is opaque: every protocol
call is modelled by an environment ("oracle") record whose fields decide
whether each call succeeds, throws, or returns particular data.  Each
HTTP handler becomes a pure function from (environment, registry state,
request body) to (new registry state, response), and the background
commenter becomes a labelled small-step transition system.
-/

/-! ## JavaScript-semantics helpers

Request-body fields may be absent (`undefined`); we model them as
`Option String`.  `jsTruthy` is JavaScript truthiness for a string field
(absent and `""` are falsy); `jsInterp` is template-literal
interpolation, where `undefined` prints as `"undefined"`. -/

def jsTruthy : Option String → Bool
  | none => false
  | some s => !(s.isEmpty)

def jsInterp : Option String → String
  | none => "undefined"
  | some s => s

/-- The session key `` `${phoneNumber}_${apiId}` `` (src/server.js:45). -/
def mkSessionKey (phoneNumber apiId : Option String) : String :=
  jsInterp phoneNumber ++ "_" ++ jsInterp apiId

/-! ## Session registry

`sessions` is a JS `Map` from session keys to client handles
(src/server.js:18).  A client handle is reduced to the two observable
bits the server reads: whether the underlying connection is up
(`client.connected`) and whether the user has completed sign-in (which
determines what `client.session.save()` serializes). -/

structure Client where
  connected : Bool
  authorized : Bool
deriving Repr, DecidableEq

abbrev Sessions := List (String × Client)

/-- `sessions.get(key)` (first binding for the key wins, as in a JS Map). -/
def lookupSession : Sessions → String → Option Client
  | [], _ => none
  | (k', c) :: rest, k => if k' = k then some c else lookupSession rest k

/-- `sessions.set(key, client)`: overwrite an existing binding in place,
otherwise append (JS Map insertion-order semantics). -/
def setSession : Sessions → String → Client → Sessions
  | [], k, c => [(k, c)]
  | (k', c') :: rest, k, c =>
    if k' = k then (k, c) :: rest else (k', c') :: setSession rest k c

/-- `StringSession#save()` is opaque; the only distinction the server can
produce is whether the serialized credential belongs to a signed-in user. -/
def sessionSave (c : Client) : String :=
  if c.authorized then "session:signed-in" else "session:unauthenticated"

/-! ## POST /api/connect (src/server.js:35-135) -/

structure ConnectReq where
  apiId : Option String
  apiHash : Option String
  phoneNumber : Option String
  code : Option String
  password : Option String
deriving Repr, DecidableEq

/-- Outcome of `client.signInUser` (src/server.js:81-104): success, a
thrown error whose message contains `PHONE_CODE_INVALID`, one containing
`SESSION_PASSWORD_NEEDED`, or any other thrown error. -/
inductive SignInOutcome where
  | ok
  | phoneCodeInvalid
  | passwordNeeded
  | otherError (msg : String)
deriving Repr, DecidableEq

/-- Environment for one `/api/connect` call: how each protocol call of
the handler would turn out. -/
structure ConnectEnv where
  /-- after `client.connect()`, the value of `client.connected` (src/server.js:56-58) -/
  connectOk : Bool
  /-- `client.sendCode` throws with this message, when `some` (src/server.js:65) -/
  sendCodeErr : Option String
  /-- result of `client.signInUser` given phone, code, password (src/server.js:81) -/
  signIn : String → String → String → SignInOutcome
  /-- re-`connect()` of an existing handle throws, when `some` (src/server.js:119) -/
  reconnectErr : Option String

/-- Protocol calls the handler actually issues, in order. -/
inductive ProtocolOp where
  | connectOp
  | sendCodeOp (phone : String)
  | signInOp (phone code password : String)
  | reconnectOp
deriving Repr, DecidableEq

/-- HTTP responses of `/api/connect`.  `needsCode` and `needsPassword`
are the 200 responses with `success:true` plus the respective flag;
`connectedOk` is the 200 response carrying the serialized session. -/
inductive ConnectResponse where
  | badRequest (error : String)
  | needsCode (message : String)
  | needsPassword (message : String)
  | connectedOk (message : String) (session : String)
  | serverError (error : String) (details : String)
deriving Repr, DecidableEq

/-- The `/api/connect` handler (src/server.js:35-135), returning the new
registry, the response, and the protocol calls issued. -/
def connectHandler (env : ConnectEnv) (sessions : Sessions) (req : ConnectReq) :
    Sessions × ConnectResponse × List ProtocolOp :=
  if ¬(jsTruthy req.apiId && jsTruthy req.apiHash && jsTruthy req.phoneNumber) then
    (sessions, .badRequest "Missing required fields: apiId, apiHash, phoneNumber", [])
  else
    let phone := jsInterp req.phoneNumber
    let key := mkSessionKey req.phoneNumber req.apiId
    match lookupSession sessions key with
    | none =>
      -- src/server.js:48-115: fresh client
      let client : Client := { connected := env.connectOk, authorized := false }
      if client.connected = false then
        -- src/server.js:58-60: `throw new Error('Failed to connect to Telegram')`
        (sessions, .serverError "Failed to connect to Telegram"
          "Make sure your credentials are correct", [.connectOp])
      else if ¬jsTruthy req.code then
        -- src/server.js:63-76: send the code and register the handle
        match env.sendCodeErr with
        | some msg =>
          (sessions, .serverError msg "Make sure your credentials are correct",
            [.connectOp, .sendCodeOp phone])
        | none =>
          (setSession sessions key client,
            .needsCode "Verification code sent to your Telegram app",
            [.connectOp, .sendCodeOp phone])
      else
        -- src/server.js:78-115: sign in with the supplied code
        let code := (req.code).getD ""
        let pw := (req.password).getD ""   -- `password || ''`
        match env.signIn phone code pw with
        | .phoneCodeInvalid =>
          (sessions, .badRequest "Invalid verification code",
            [.connectOp, .signInOp phone code pw])
        | .passwordNeeded =>
          (sessions,
            .needsPassword "Two-factor authentication enabled. Please provide password.",
            [.connectOp, .signInOp phone code pw])
        | .otherError msg =>
          (sessions, .serverError msg "Make sure your credentials are correct",
            [.connectOp, .signInOp phone code pw])
        | .ok =>
          let client := { client with authorized := true }
          (setSession sessions key client,
            .connectedOk "Successfully connected to Telegram" (sessionSave client),
            [.connectOp, .signInOp phone code pw])
    | some client =>
      -- src/server.js:116-127: client already exists
      if client.connected = false then
        match env.reconnectErr with
        | some msg =>
          (sessions, .serverError msg "Make sure your credentials are correct",
            [.reconnectOp])
        | none =>
          let client := { client with connected := true }
          (setSession sessions key client,
            .connectedOk "Already connected" (sessionSave client), [.reconnectOp])
      else
        (sessions, .connectedOk "Already connected" (sessionSave client), [])

/-! ### Claim C1 -/

/-- Environment in which every protocol call succeeds. -/
def c1Env : ConnectEnv :=
  { connectOk := true
    sendCodeErr := none
    signIn := fun _ _ _ => .ok
    reconnectErr := none }

/-- First request: credentials but no code (the `needsCode` step). -/
def c1ReqNoCode : ConnectReq :=
  { apiId := some "12345"
    apiHash := some "abcdef"
    phoneNumber := some "+15550001111"
    code := none
    password := none }

/-- Follow-up request: the same key, now supplying the verification code. -/
def c1ReqWithCode : ConnectReq :=
  { c1ReqNoCode with code := some "54321" }

/-- Claim C1 (code bug): after a first `/api/connect` without a code has
registered the handle and returned `needsCode`, a follow-up request with
the same `(phoneNumber, apiId)` key carrying the code finds the handle
already registered, so it takes the `else` branch (src/server.js:116-127)
and answers `Already connected` with the serialization of the still
unauthenticated session — it issues no protocol call at all, and in
particular never submits the phone number, code, and password via
`signInUser`, contrary to the claim.  The intended continuation of the
handshake (src/server.js:78-115) is unreachable for this key. -/
theorem connect_followup_with_code_never_signs_in :
    (connectHandler c1Env [] c1ReqNoCode).2.1 =
      .needsCode "Verification code sent to your Telegram app" ∧
    (connectHandler c1Env (connectHandler c1Env [] c1ReqNoCode).1 c1ReqWithCode).2.1 =
      .connectedOk "Already connected" "session:unauthenticated" ∧
    (connectHandler c1Env (connectHandler c1Env [] c1ReqNoCode).1 c1ReqWithCode).2.2 = [] := by
  decide

/-! ## POST /api/subscribe (src/server.js:248-314)

`link.replace('https://t.me/', '').replace('@', '')` uses JavaScript
string `replace`, which removes only the first occurrence of the
pattern; we model it on character lists. -/

/-- Whether `pat` occurs right at the start of `s`. -/
def startsWithChars : List Char → List Char → Bool
  | [], _ => true
  | _ :: _, [] => false
  | p :: ps, c :: cs => p = c && startsWithChars ps cs

/-- Remove the first occurrence of `pat` from `s` (JS
`String.prototype.replace` with the empty replacement). -/
def removeFirstChars (pat : List Char) : List Char → List Char
  | [] => []
  | c :: cs =>
    if startsWithChars pat (c :: cs) then (c :: cs).drop pat.length
    else c :: removeFirstChars pat cs

/-- `link.replace('https://t.me/', '').replace('@', '')` (src/server.js:265). -/
def normalizeLink (link : String) : String :=
  (removeFirstChars ("@".toList)
    (removeFirstChars ("https://t.me/".toList) link.toList)).asString

structure SubscriptionResult where
  channel : String
  username : Option String
  success : Bool
  message : Option String
  error : Option String
deriving Repr, DecidableEq

/-- One iteration of the subscribe loop (src/server.js:263-299) at
position `i`.  The environment `outcome` says whether the `getEntity` /
`JoinChannel` pair of attempt `i` succeeds (`none`) or throws with a
message (`some msg`).  On success the pushed record has `username`,
`success:true` and a message; on failure it has only `channel`,
`success:false` and the error — no `username` field. -/
def subscribeStep (outcome : Nat → Option String) (i : Nat) (link : String) :
    SubscriptionResult :=
  match outcome i with
  | none =>
    { channel := link
      username := some (normalizeLink link)
      success := true
      message := some "Successfully joined"
      error := none }
  | some msg =>
    { channel := link
      username := none
      success := false
      message := none
      error := some msg }

/-- The `for (const link of channelLinks)` loop, carrying the iteration
index used to consult the outcome environment. -/
def subscribeLoop (outcome : Nat → Option String) : Nat → List String → List SubscriptionResult
  | _, [] => []
  | i, link :: rest => subscribeStep outcome i link :: subscribeLoop outcome (i + 1) rest

/-- The `results` list accumulated by the handler. -/
def subscribeResults (outcome : Nat → Option String) (links : List String) :
    List SubscriptionResult :=
  subscribeLoop outcome 0 links

/-- Number of join attempts (from position `i` on) that fail. -/
def failCountFrom (outcome : Nat → Option String) : Nat → List String → Nat
  | _, [] => 0
  | i, _ :: rest =>
    (if (outcome i).isSome then 1 else 0) + failCountFrom outcome (i + 1) rest

structure SubscribeReq where
  channelLinks : List String
  apiId : Option String
  phoneNumber : Option String
deriving Repr, DecidableEq

inductive SubscribeResponse where
  | unauthorized (error : String)
  | subOk (results : List SubscriptionResult) (joined failed : Nat)
deriving Repr, DecidableEq

/-- The `/api/subscribe` handler (src/server.js:248-314). -/
def subscribeHandler (outcome : Nat → Option String) (sessions : Sessions)
    (req : SubscribeReq) : SubscribeResponse :=
  match lookupSession sessions (mkSessionKey req.phoneNumber req.apiId) with
  | none => .unauthorized "Not connected to Telegram"
  | some client =>
    if client.connected = false then .unauthorized "Not connected to Telegram"
    else
      let results := subscribeResults outcome req.channelLinks
      .subOk results
        ((results.filter fun r => r.success).length)
        ((results.filter fun r => !r.success).length)

/-! ### Subscribe-loop lemmas -/

lemma subscribeStep_channel (outcome : Nat → Option String) (i : Nat) (link : String) :
    (subscribeStep outcome i link).channel = link := by
  unfold subscribeStep
  cases outcome i <;> rfl

lemma subscribeLoop_length (outcome : Nat → Option String) :
    ∀ (links : List String) (i : Nat), (subscribeLoop outcome i links).length = links.length := by
  intro links
  induction links with
  | nil => intro i; rfl
  | cons l rest ih => intro i; simp [subscribeLoop, ih]

lemma subscribeLoop_map_channel (outcome : Nat → Option String) :
    ∀ (links : List String) (i : Nat),
      (subscribeLoop outcome i links).map SubscriptionResult.channel = links := by
  intro links
  induction links with
  | nil => intro i; rfl
  | cons l rest ih => intro i; simp [subscribeLoop, subscribeStep_channel, ih]

lemma subscribeLoop_filter_not_success (outcome : Nat → Option String) :
    ∀ (links : List String) (i : Nat),
      ((subscribeLoop outcome i links).filter fun r => !r.success).length =
        failCountFrom outcome i links := by
  intro links
  induction links with
  | nil => intro i; rfl
  | cons l rest ih =>
    intro i
    cases h : outcome i <;>
      simp [subscribeLoop, subscribeStep, failCountFrom, h, List.filter_cons, ih]
    omega

lemma subscribeLoop_filter_success (outcome : Nat → Option String) :
    ∀ (links : List String) (i : Nat),
      ((subscribeLoop outcome i links).filter fun r => r.success).length =
        links.length - failCountFrom outcome i links := by
  intro links
  induction links with
  | nil => intro i; rfl
  | cons l rest ih =>
    intro i
    have hle : failCountFrom outcome (i + 1) rest ≤ rest.length := by
      clear ih
      induction rest generalizing i with
      | nil => simp [failCountFrom]
      | cons x xs ihr =>
        simp only [failCountFrom, List.length_cons]
        have := ihr (i + 1)
        cases (outcome (i + 1)).isSome <;> simp <;> omega
    cases h : outcome i <;>
      simp [subscribeLoop, subscribeStep, failCountFrom, h, List.filter_cons, ih] <;>
      omega

/-! ### Claim C3 -/

/-- Claim C3: on a connected session, `/api/subscribe` over `N` channel
links of which `K = failCountFrom outcome 0 links` join attempts fail
returns the accumulated results list of length exactly `N`, in input
order (its `channel` column is the input list itself), with
`joined = N - K` and `failed = K` — whatever the failing positions. -/
theorem subscribe_aggregate_counts
    (outcome : Nat → Option String) (sessions : Sessions) (req : SubscribeReq)
    (client : Client)
    (hlk : lookupSession sessions (mkSessionKey req.phoneNumber req.apiId) = some client)
    (hc : client.connected = true) :
    subscribeHandler outcome sessions req =
      .subOk (subscribeResults outcome req.channelLinks)
        (req.channelLinks.length - failCountFrom outcome 0 req.channelLinks)
        (failCountFrom outcome 0 req.channelLinks) ∧
    (subscribeResults outcome req.channelLinks).length = req.channelLinks.length ∧
    (subscribeResults outcome req.channelLinks).map SubscriptionResult.channel =
      req.channelLinks := by
  refine ⟨?_, subscribeLoop_length outcome req.channelLinks 0,
    subscribeLoop_map_channel outcome req.channelLinks 0⟩
  unfold subscribeHandler
  rw [hlk]
  simp only [hc, Bool.true_eq_false, if_false]
  unfold subscribeResults
  rw [subscribeLoop_filter_success outcome req.channelLinks 0,
    subscribeLoop_filter_not_success outcome req.channelLinks 0]

/-- Concrete instance of C3: the spec scenario — two links, the second
join fails — yields two results in input order with `joined:1, failed:1`. -/
theorem subscribe_aggregate_counts_witness :
    subscribeHandler (fun i => if i = 1 then some "CHANNELS_TOO_MUCH" else none)
        [("+15550001111_12345", ⟨true, true⟩)]
        { channelLinks := ["https://t.me/foo", "@bar"]
          apiId := some "12345", phoneNumber := some "+15550001111" } =
      .subOk
        [{ channel := "https://t.me/foo", username := some "foo", success := true
           message := some "Successfully joined", error := none },
         { channel := "@bar", username := none, success := false
           message := none, error := some "CHANNELS_TOO_MUCH" }] 1 1 := by
  have h := subscribe_aggregate_counts
    (fun i => if i = 1 then some "CHANNELS_TOO_MUCH" else none)
    [("+15550001111_12345", ⟨true, true⟩)]
    { channelLinks := ["https://t.me/foo", "@bar"]
      apiId := some "12345", phoneNumber := some "+15550001111" }
    ⟨true, true⟩ (by decide) rfl
  rw [h.1]
  decide

/-! ### Claim C9 -/

/-- Claim C9 as stated is false: not every entry of the results list
carries the resolved username — the failure branch
(src/server.js:293-297) pushes a record without a `username` field.
Concretely, one failing link `"@bar"` yields a result whose `username`
is absent. -/
theorem subscription_result_missing_username :
    ¬ (∀ (outcome : Nat → Option String) (links : List String) r,
        r ∈ subscribeResults outcome links → r.username.isSome = true) := by
  intro h
  have hmem : ({ channel := "@bar", username := none, success := false
                 message := none, error := some "boom" } : SubscriptionResult) ∈
      subscribeResults (fun _ => some "boom") ["@bar"] := by decide
  have := h (fun _ => some "boom") ["@bar"] _ hmem
  simp at this

/-- Claim C9, amended: every entry of the results list carries the
original link (a member of the input list) and a success flag; a
successful entry additionally carries the resolved (normalized) username
and the message, while a failed entry carries the error message but no
username. -/
theorem subscription_result_shape
    (outcome : Nat → Option String) (links : List String) (r : SubscriptionResult)
    (hmem : r ∈ subscribeResults outcome links) :
    r.channel ∈ links ∧
    (r.success = true →
      r.username = some (normalizeLink r.channel) ∧
      r.message = some "Successfully joined" ∧ r.error = none) ∧
    (r.success = false →
      r.username = none ∧ r.message = none ∧ r.error.isSome = true) := by
  have main : ∀ (ls : List String) (i : Nat),
      r ∈ subscribeLoop outcome i ls →
      r.channel ∈ ls ∧
      (r.success = true →
        r.username = some (normalizeLink r.channel) ∧
        r.message = some "Successfully joined" ∧ r.error = none) ∧
      (r.success = false →
        r.username = none ∧ r.message = none ∧ r.error.isSome = true) := by
    intro ls
    induction ls with
    | nil => intro i h; simp [subscribeLoop] at h
    | cons l rest ih =>
      intro i h
      rcases (List.mem_cons).1 h with h1 | h2
      · subst h1
        cases hout : outcome i <;>
          simp [subscribeStep, hout, List.mem_cons]
      · obtain ⟨hm, hs, hf⟩ := ih (i + 1) h2
        exact ⟨List.mem_cons_of_mem l hm, hs, hf⟩
  exact main links 0 hmem

/-- Concrete instance of the amended C9: a successful and a failing
entry both exist with exactly the recorded shapes. -/
theorem subscription_result_shape_witness :
    ("@bar" : String) ∈ (["https://t.me/foo", "@bar"] : List String) ∧
    (some "boom" : Option String).isSome = true := by
  have h := subscription_result_shape
    (fun i => if i = 1 then some "boom" else none)
    ["https://t.me/foo", "@bar"]
    { channel := "@bar", username := none, success := false
      message := none, error := some "boom" }
    (by decide)
  exact ⟨h.1, (h.2.2 rfl).2.2⟩

/-! ## POST /api/search-channels (src/server.js:138-245) -/

/-- A chat object as returned by `contacts.Search`, reduced to the
fields the handler reads. -/
structure Chat where
  id : Nat
  className : String
  megagroup : Bool
  title : String
  username : Option String
  verified : Bool
deriving Repr, DecidableEq

structure ChatFlags where
  noComments : Bool
deriving Repr, DecidableEq

/-- `fullChannel.fullChat`, reduced to the fields the handler reads.
`flags` may be absent entirely (src/server.js:194 treats that as
comments enabled). -/
structure FullChat where
  participantsCount : Option Int
  about : Option String
  flags : Option ChatFlags
deriving Repr, DecidableEq

/-- `fullChannel.fullChat.participantsCount || 0` (src/server.js:187). -/
def participants (f : FullChat) : Int :=
  f.participantsCount.getD 0

/-- `!fullChannel.fullChat.flags || !fullChannel.fullChat.flags.noComments`
(src/server.js:194). -/
def hasDiscussion (f : FullChat) : Bool :=
  match f.flags with
  | none => true
  | some fl => !fl.noComments

/-- Environment for one `/api/search-channels` call: the result of
`contacts.Search` per keyword and of `channels.GetFullChannel` per chat;
`none` means the call throws. -/
structure SearchEnv where
  search : String → Option (List Chat)
  getFull : Chat → Option FullChat

/-- `chat.username || null` — the empty string is falsy, so it also
becomes `null` (src/server.js:202). -/
def jsOrNull : Option String → Option String
  | none => none
  | some s => if s.isEmpty then none else some s

/-- The object pushed onto `allChannels` (src/server.js:199-208). -/
structure ChannelCandidate where
  id : Nat
  name : String
  username : Option String
  subscribers : Int
  description : String
  verified : Bool
  keyword : String
  hasComments : Bool
deriving Repr, DecidableEq

def mkCandidate (keyword : String) (chat : Chat) (f : FullChat) : ChannelCandidate :=
  { id := chat.id
    name := chat.title
    username := jsOrNull chat.username
    subscribers := participants f
    description := (f.about).getD ""
    verified := chat.verified
    keyword := keyword
    hasComments := true }

/-- Accumulator of the discovery loops: the `allChannels` array and the
`seenIds` set (src/server.js:157-158). -/
structure SearchAcc where
  allChannels : List ChannelCandidate
  seenIds : List Nat
deriving Repr, DecidableEq

/-- Processing of one chat of one keyword's search results
(src/server.js:176-219): only broadcast channels not already seen are
considered; a failing `GetFullChannel` is caught and skipped; the
candidate is recorded only if its subscriber count lies within
`[minSubscribers, maxSubscribers]` and comments are enabled. -/
def stepChat (env : SearchEnv) (minS maxS : Int) (keyword : String)
    (acc : SearchAcc) (chat : Chat) : SearchAcc :=
  if chat.className = "Channel" ∧ chat.megagroup = false ∧ chat.id ∉ acc.seenIds then
    match env.getFull chat with
    | none => acc
    | some f =>
      if minS ≤ participants f ∧ participants f ≤ maxS then
        if hasDiscussion f then
          { allChannels := acc.allChannels ++ [mkCandidate keyword chat f]
            seenIds := acc.seenIds ++ [chat.id] }
        else acc
      else acc
  else acc

/-- Processing of one keyword (src/server.js:161-228): a failing
`contacts.Search` is caught and the keyword is skipped. -/
def stepKeyword (env : SearchEnv) (minS maxS : Int) (acc : SearchAcc)
    (keyword : String) : SearchAcc :=
  match env.search keyword with
  | none => acc
  | some chats => chats.foldl (stepChat env minS maxS keyword) acc

/-- The `allChannels` list accumulated over all keywords
(src/server.js:157-230). -/
def searchChannelsCore (env : SearchEnv) (minS maxS : Int)
    (keywords : List String) : List ChannelCandidate :=
  (keywords.foldl (stepKeyword env minS maxS) ⟨[], []⟩).allChannels

structure SearchReq where
  keywords : Option (List String)
  minSubscribers : Int
  maxSubscribers : Int
  apiId : Option String
  phoneNumber : Option String

inductive SearchResponse where
  | badRequest (error : String)
  | unauthorized (error : String)
  | searchOk (channels : List ChannelCandidate) (total : Nat)
deriving Repr, DecidableEq

/-- The `/api/search-channels` handler (src/server.js:138-245).  The
guard `!keywords || keywords.length === 0` (src/server.js:144) rejects a
missing and an empty keyword list alike. -/
def searchChannelsHandler (env : SearchEnv) (sessions : Sessions)
    (req : SearchReq) : SearchResponse :=
  match req.keywords with
  | none => .badRequest "Keywords are required"
  | some ks =>
    if ks.isEmpty then .badRequest "Keywords are required"
    else
      match lookupSession sessions (mkSessionKey req.phoneNumber req.apiId) with
      | none => .unauthorized "Not connected to Telegram. Please connect first."
      | some client =>
        if client.connected = false then
          .unauthorized "Not connected to Telegram. Please connect first."
        else
          let chans := searchChannelsCore env req.minSubscribers req.maxSubscribers ks
          .searchOk chans chans.length

/-! ### Discovery-loop lemmas -/

/-- Fold-preservation helper. -/
lemma foldl_preserve {α β : Type} (f : β → α → β) (P : β → Prop)
    (hstep : ∀ b a, P b → P (f b a)) :
    ∀ (l : List α) (b : β), P b → P (l.foldl f b) := by
  intro l
  induction l with
  | nil => intro b hb; exact hb
  | cons a rest ih => intro b hb; exact ih (f b a) (hstep b a hb)

/-- A chat whose `GetFullChannel` throws leaves the accumulator
untouched. -/
lemma stepChat_getFull_none {env : SearchEnv} {minS maxS : Int} {keyword : String}
    {chat : Chat} (h : env.getFull chat = none) (acc : SearchAcc) :
    stepChat env minS maxS keyword acc chat = acc := by
  unfold stepChat
  split
  · rw [h]
  · rfl

/-- A keyword whose search throws leaves the accumulator untouched. -/
lemma stepKeyword_search_none {env : SearchEnv} {minS maxS : Int} {keyword : String}
    (h : env.search keyword = none) (acc : SearchAcc) :
    stepKeyword env minS maxS acc keyword = acc := by
  unfold stepKeyword
  rw [h]

/-- With inverted bounds no chat can pass the subscriber filter. -/
lemma stepChat_inverted_bounds {env : SearchEnv} {minS maxS : Int}
    (hinv : maxS < minS) (keyword : String) (acc : SearchAcc) (chat : Chat) :
    stepChat env minS maxS keyword acc chat = acc := by
  unfold stepChat
  split
  · cases hf : env.getFull chat with
    | none => rfl
    | some f =>
      have : ¬(minS ≤ participants f ∧ participants f ≤ maxS) := by omega
      simp [this]
  · rfl

/-- Reduction of the handler on a connected session with a present,
non-empty keyword list. -/
lemma searchChannelsHandler_connected (env : SearchEnv) (sessions : Sessions)
    (req : SearchReq) (ks : List String) (client : Client)
    (hks : req.keywords = some ks) (hne : ks ≠ [])
    (hlk : lookupSession sessions (mkSessionKey req.phoneNumber req.apiId) = some client)
    (hc : client.connected = true) :
    searchChannelsHandler env sessions req =
      .searchOk (searchChannelsCore env req.minSubscribers req.maxSubscribers ks)
        (searchChannelsCore env req.minSubscribers req.maxSubscribers ks).length := by
  unfold searchChannelsHandler
  rw [hks]
  cases ks with
  | nil => exact absurd rfl hne
  | cons k rest => simp [hlk, hc]

/-! ### Claim C8 -/

/-- Claim C8: for inverted subscriber bounds (`max < min`) the discovery
call on a connected session with a non-empty keyword list still succeeds
and returns an empty channel list with `total = 0`, whatever the search
environment returns. -/
theorem search_inverted_bounds_empty (env : SearchEnv) (sessions : Sessions)
    (req : SearchReq) (ks : List String) (client : Client)
    (hinv : req.maxSubscribers < req.minSubscribers)
    (hks : req.keywords = some ks) (hne : ks ≠ [])
    (hlk : lookupSession sessions (mkSessionKey req.phoneNumber req.apiId) = some client)
    (hc : client.connected = true) :
    searchChannelsHandler env sessions req = .searchOk [] 0 := by
  rw [searchChannelsHandler_connected env sessions req ks client hks hne hlk hc]
  have hcore : searchChannelsCore env req.minSubscribers req.maxSubscribers ks =
      ([] : List ChannelCandidate) := by
    unfold searchChannelsCore
    have hacc : ks.foldl (stepKeyword env req.minSubscribers req.maxSubscribers) ⟨[], []⟩ =
        (⟨[], []⟩ : SearchAcc) := by
      apply foldl_preserve (P := fun acc => acc = (⟨[], []⟩ : SearchAcc))
      · intro acc kw hacc
        subst hacc
        unfold stepKeyword
        cases hs : env.search kw with
        | none => rfl
        | some chats =>
          apply foldl_preserve (P := fun acc => acc = (⟨[], []⟩ : SearchAcc))
          · intro acc chat h
            subst h
            exact stepChat_inverted_bounds hinv _ _ _
          · rfl
      · rfl
    rw [hacc]
  rw [hcore]
  rfl

/-- Concrete instance of C8: bounds `[5, 3]`, a keyword whose search
returns a channel that would qualify under sane bounds, and yet the
response is the empty success. -/
theorem search_inverted_bounds_empty_witness :
    searchChannelsHandler
      { search := fun _ => some [{ id := 7, className := "Channel", megagroup := false
                                   title := "News", username := some "news"
                                   verified := false }]
        getFull := fun _ => some { participantsCount := some 4, about := some ""
                                   flags := none } }
      [("+15550001111_12345", ⟨true, true⟩)]
      { keywords := some ["news"], minSubscribers := 5, maxSubscribers := 3
        apiId := some "12345", phoneNumber := some "+15550001111" } =
      .searchOk [] 0 := by
  exact search_inverted_bounds_empty _ _ _ ["news"] ⟨true, true⟩ (by decide)
    rfl (by decide) (by decide) rfl

/-! ### Claim C5 -/

/-- Invariant of the discovery accumulator: recorded candidate ids are
pairwise distinct and every recorded id is in `seenIds`. -/
def searchInv (acc : SearchAcc) : Prop :=
  (acc.allChannels.map ChannelCandidate.id).Nodup ∧
  ∀ c ∈ acc.allChannels, c.id ∈ acc.seenIds

lemma stepChat_searchInv (env : SearchEnv) (minS maxS : Int) (keyword : String)
    (acc : SearchAcc) (chat : Chat) (h : searchInv acc) :
    searchInv (stepChat env minS maxS keyword acc chat) := by
  unfold stepChat
  split
  next hcond =>
    obtain ⟨hcls, hmg, hseen⟩ := hcond
    split
    next => exact h
    next f hf =>
      split
      next hrange =>
        split
        next hdisc =>
          obtain ⟨hnd, hsub⟩ := h
          constructor
          · rw [List.map_append, List.nodup_append]
            refine ⟨hnd, by simp, ?_⟩
            intro x hx hx'
            simp [mkCandidate] at hx'
            subst hx'
            obtain ⟨c, hcmem, hcid⟩ := List.mem_map.1 hx
            exact hseen (hcid ▸ hsub c hcmem)
          · intro c hc
            rcases List.mem_append.1 hc with h1 | h2
            · exact List.mem_append_left _ (hsub c h1)
            · simp only [List.mem_singleton] at h2
              subst h2
              simp [mkCandidate]
        next => exact h
      next => exact h
  next => exact h

lemma stepKeyword_searchInv (env : SearchEnv) (minS maxS : Int)
    (acc : SearchAcc) (keyword : String) (h : searchInv acc) :
    searchInv (stepKeyword env minS maxS acc keyword) := by
  unfold stepKeyword
  split
  next => exact h
  next chats hs =>
    exact foldl_preserve _ searchInv
      (fun b a hb => stepChat_searchInv env minS maxS keyword b a hb) chats acc h

lemma searchChannelsCore_searchInv (env : SearchEnv) (minS maxS : Int)
    (keywords : List String) :
    ((searchChannelsCore env minS maxS keywords).map ChannelCandidate.id).Nodup := by
  have h := foldl_preserve (stepKeyword env minS maxS) searchInv
    (fun b a hb => stepKeyword_searchInv env minS maxS b a hb) keywords ⟨[], []⟩
    ⟨by simp, by simp⟩
  exact h.1

/-- Claim C5: whatever the per-keyword search results (overlapping
between keywords included), the channels list of a successful
`/api/search-channels` response never contains two entries with the same
channel id — the `seenIds` set (src/server.js:158,178,197) enforces
per-call deduplication. -/
theorem search_no_duplicate_ids (env : SearchEnv) (sessions : Sessions)
    (req : SearchReq) (chans : List ChannelCandidate) (total : Nat)
    (h : searchChannelsHandler env sessions req = .searchOk chans total) :
    (chans.map ChannelCandidate.id).Nodup := by
  unfold searchChannelsHandler at h
  split at h
  next => cases h
  next ks hks =>
    split at h
    next => cases h
    next =>
      split at h
      next => cases h
      next client hlk =>
        split at h
        next => cases h
        next =>
          simp only [SearchResponse.searchOk.injEq] at h
          rw [← h.1]
          exact searchChannelsCore_searchInv env req.minSubscribers req.maxSubscribers _

/-- Concrete instance of C5: two keywords whose searches return the very
same channel still produce a single, duplicate-free entry. -/
theorem search_no_duplicate_ids_witness :
    ((searchChannelsCore
        { search := fun _ => some [{ id := 7, className := "Channel", megagroup := false
                                     title := "News", username := some "news"
                                     verified := false }]
          getFull := fun _ => some { participantsCount := some 2500, about := none
                                     flags := none } }
        1000 5000 ["news", "daily news"]).map ChannelCandidate.id).Nodup := by
  have h := search_no_duplicate_ids
    { search := fun _ => some [{ id := 7, className := "Channel", megagroup := false
                                 title := "News", username := some "news"
                                 verified := false }]
      getFull := fun _ => some { participantsCount := some 2500, about := none
                                 flags := none } }
    [("+15550001111_12345", ⟨true, true⟩)]
    { keywords := some ["news", "daily news"], minSubscribers := 1000
      maxSubscribers := 5000, apiId := some "12345"
      phoneNumber := some "+15550001111" }
    (searchChannelsCore
      { search := fun _ => some [{ id := 7, className := "Channel", megagroup := false
                                   title := "News", username := some "news"
                                   verified := false }]
        getFull := fun _ => some { participantsCount := some 2500, about := none
                                   flags := none } }
      1000 5000 ["news", "daily news"])
    (searchChannelsCore
      { search := fun _ => some [{ id := 7, className := "Channel", megagroup := false
                                   title := "News", username := some "news"
                                   verified := false }]
        getFull := fun _ => some { participantsCount := some 2500, about := none
                                   flags := none } }
      1000 5000 ["news", "daily news"]).length
    (by rfl)
  exact h

/-! ### Claim C4 -/

/-- What being accepted by the discovery filter (src/server.js:190-196)
guarantees about a recorded candidate. -/
def candidateOk (env : SearchEnv) (minS maxS : Int) (c : ChannelCandidate) : Prop :=
  minS ≤ c.subscribers ∧ c.subscribers ≤ maxS ∧ c.hasComments = true ∧
  ∃ chat f, env.getFull chat = some f ∧ chat.id = c.id ∧
    hasDiscussion f = true ∧ participants f = c.subscribers

lemma stepChat_candidateOk (env : SearchEnv) (minS maxS : Int) (keyword : String)
    (acc : SearchAcc) (chat : Chat)
    (h : ∀ c ∈ acc.allChannels, candidateOk env minS maxS c) :
    ∀ c ∈ (stepChat env minS maxS keyword acc chat).allChannels,
      candidateOk env minS maxS c := by
  unfold stepChat
  split
  next hcond =>
    split
    next => exact h
    next f hf =>
      split
      next hrange =>
        split
        next hdisc =>
          intro c hc
          rcases List.mem_append.1 hc with h1 | h2
          · exact h c h1
          · simp only [List.mem_singleton] at h2
            subst h2
            exact ⟨hrange.1, hrange.2, rfl, chat, f, hf, rfl, hdisc, rfl⟩
        next => exact h
      next => exact h
  next => exact h

lemma searchChannelsCore_candidateOk (env : SearchEnv) (minS maxS : Int)
    (keywords : List String) :
    ∀ c ∈ searchChannelsCore env minS maxS keywords, candidateOk env minS maxS c := by
  have h := foldl_preserve (stepKeyword env minS maxS)
    (fun acc => ∀ c ∈ acc.allChannels, candidateOk env minS maxS c)
    (fun b kw hb => by
      unfold stepKeyword
      split
      next => exact hb
      next chats hs =>
        exact foldl_preserve _ _
          (fun b' a' hb' => stepChat_candidateOk env minS maxS kw b' a' hb') chats b hb)
    keywords ⟨[], []⟩ (by intro c hc; cases hc)
  exact h

/-- Claim C4: (1) every candidate of a successful discovery response has
a subscriber count within `[minSubscribers, maxSubscribers]` inclusive
and stems from full-channel metadata whose discussion flag is enabled;
(2) boundary inclusion: an unseen broadcast channel whose count equals
`min` or otherwise lies in the inclusive range and whose comments are
enabled is recorded by `stepChat`; (3) boundary exclusion: a chat whose
count is exactly `min - 1` or exactly `max + 1` never changes the
accumulator. -/
theorem search_filter_condition :
    (∀ (env : SearchEnv) (sessions : Sessions) (req : SearchReq) chans total,
      searchChannelsHandler env sessions req = .searchOk chans total →
      ∀ c ∈ chans,
        req.minSubscribers ≤ c.subscribers ∧ c.subscribers ≤ req.maxSubscribers ∧
        c.hasComments = true ∧
        ∃ chat f, env.getFull chat = some f ∧ chat.id = c.id ∧
          hasDiscussion f = true ∧ participants f = c.subscribers) ∧
    (∀ (env : SearchEnv) (minS maxS : Int) (keyword : String) (acc : SearchAcc)
        (chat : Chat) (f : FullChat),
      chat.className = "Channel" → chat.megagroup = false → chat.id ∉ acc.seenIds →
      env.getFull chat = some f → hasDiscussion f = true →
      minS ≤ participants f → participants f ≤ maxS →
      stepChat env minS maxS keyword acc chat =
        ⟨acc.allChannels ++ [mkCandidate keyword chat f], acc.seenIds ++ [chat.id]⟩) ∧
    (∀ (env : SearchEnv) (minS maxS : Int) (keyword : String) (acc : SearchAcc)
        (chat : Chat) (f : FullChat),
      env.getFull chat = some f →
      (participants f = minS - 1 ∨ participants f = maxS + 1) →
      stepChat env minS maxS keyword acc chat = acc) := by
  refine ⟨?_, ?_, ?_⟩
  · intro env sessions req chans total h c hc
    unfold searchChannelsHandler at h
    split at h
    next => cases h
    next ks hks =>
      split at h
      next => cases h
      next =>
        split at h
        next => cases h
        next client hlk =>
          split at h
          next => cases h
          next =>
            simp only [SearchResponse.searchOk.injEq] at h
            rw [← h.1] at hc
            exact searchChannelsCore_candidateOk env req.minSubscribers
              req.maxSubscribers ks c hc
  · intro env minS maxS keyword acc chat f hcls hmg hseen hf hdisc hlo hhi
    unfold stepChat
    rw [if_pos ⟨hcls, hmg, hseen⟩]
    simp only [hf]
    rw [if_pos ⟨hlo, hhi⟩, if_pos hdisc]
  · intro env minS maxS keyword acc chat f hf hbd
    unfold stepChat
    split
    next =>
      simp only [hf]
      rw [if_neg (by omega)]
    next => rfl

/-- Concrete instance of C4: the spec scenario — one matching channel
with 2500 subscribers and comments enabled under bounds `[1000, 5000]` —
plus a boundary inclusion at exactly `min` and exclusions at `min - 1`
and `max + 1`. -/
theorem search_filter_condition_witness :
    ((1000 : Int) ≤ 2500 ∧ (2500 : Int) ≤ 5000 ∧ True ∧
      ∃ chat f,
        (SearchEnv.mk (fun _ => some [⟨7, "Channel", false, "News", some "news", false⟩])
          (fun _ => some ⟨some 2500, none, none⟩)).getFull chat = some f ∧
        chat.id = 7 ∧ hasDiscussion f = true ∧ participants f = 2500) ∧
    stepChat
        (SearchEnv.mk (fun _ => some [⟨7, "Channel", false, "News", some "news", false⟩])
          (fun _ => some ⟨some 1000, none, none⟩))
        1000 5000 "news" ⟨[], []⟩ ⟨7, "Channel", false, "News", some "news", false⟩ =
      ⟨[mkCandidate "news" ⟨7, "Channel", false, "News", some "news", false⟩
          ⟨some 1000, none, none⟩], [7]⟩ ∧
    stepChat
        (SearchEnv.mk (fun _ => some [⟨7, "Channel", false, "News", some "news", false⟩])
          (fun _ => some ⟨some 999, none, none⟩))
        1000 5000 "news" ⟨[], []⟩ ⟨7, "Channel", false, "News", some "news", false⟩ =
      ⟨[], []⟩ ∧
    stepChat
        (SearchEnv.mk (fun _ => some [⟨7, "Channel", false, "News", some "news", false⟩])
          (fun _ => some ⟨some 5001, none, none⟩))
        1000 5000 "news" ⟨[], []⟩ ⟨7, "Channel", false, "News", some "news", false⟩ =
      ⟨[], []⟩ := by
  refine ⟨?_, ?_, ?_, ?_⟩
  · have h := search_filter_condition.1
      (SearchEnv.mk (fun _ => some [⟨7, "Channel", false, "News", some "news", false⟩])
        (fun _ => some ⟨some 2500, none, none⟩))
      [("+15550001111_12345", ⟨true, true⟩)]
      { keywords := some ["news"], minSubscribers := 1000, maxSubscribers := 5000
        apiId := some "12345", phoneNumber := some "+15550001111" }
      [mkCandidate "news" ⟨7, "Channel", false, "News", some "news", false⟩
        ⟨some 2500, none, none⟩] 1
      (by rfl)
      (mkCandidate "news" ⟨7, "Channel", false, "News", some "news", false⟩
        ⟨some 2500, none, none⟩)
      (by simp)
    exact ⟨h.1, h.2.1, trivial, h.2.2.2⟩
  · exact search_filter_condition.2.1 _ 1000 5000 "news" ⟨[], []⟩
      ⟨7, "Channel", false, "News", some "news", false⟩ ⟨some 1000, none, none⟩
      rfl rfl (by simp) rfl rfl (by decide) (by decide)
  · exact search_filter_condition.2.2 _ 1000 5000 "news" ⟨[], []⟩
      ⟨7, "Channel", false, "News", some "news", false⟩ ⟨some 999, none, none⟩
      rfl (Or.inl (by decide))
  · exact search_filter_condition.2.2 _ 1000 5000 "news" ⟨[], []⟩
      ⟨7, "Channel", false, "News", some "news", false⟩ ⟨some 5001, none, none⟩
      rfl (Or.inr (by decide))

/-! ### Claim C7 -/

/-- Claim C7: per-item failures never abort discovery, and the call only
fails wholesale on a missing/empty keyword list (400) or a
missing/disconnected session (401).  Conjuncts: (1) on a connected
session with a non-empty keyword list the response is the 200 success,
whatever combination of per-keyword and per-chat protocol failures the
environment produces; (2) a missing or empty keyword list yields the
400; (3) an absent or disconnected client yields the 401; (4) a keyword
whose search throws is skipped: the result equals that of the keyword
list without it; (5) a chat whose metadata fetch throws is skipped: the
fold over the chat list equals the fold without that chat. -/
theorem search_partial_failure_tolerance :
    (∀ (env : SearchEnv) (sessions : Sessions) (req : SearchReq) ks (client : Client),
      req.keywords = some ks → ks ≠ [] →
      lookupSession sessions (mkSessionKey req.phoneNumber req.apiId) = some client →
      client.connected = true →
      searchChannelsHandler env sessions req =
        .searchOk (searchChannelsCore env req.minSubscribers req.maxSubscribers ks)
          (searchChannelsCore env req.minSubscribers req.maxSubscribers ks).length) ∧
    (∀ (env : SearchEnv) (sessions : Sessions) (req : SearchReq),
      req.keywords = none ∨ req.keywords = some [] →
      searchChannelsHandler env sessions req = .badRequest "Keywords are required") ∧
    (∀ (env : SearchEnv) (sessions : Sessions) (req : SearchReq) ks,
      req.keywords = some ks → ks ≠ [] →
      (∀ client, lookupSession sessions (mkSessionKey req.phoneNumber req.apiId) =
        some client → client.connected = false) →
      searchChannelsHandler env sessions req =
        .unauthorized "Not connected to Telegram. Please connect first.") ∧
    (∀ (env : SearchEnv) (minS maxS : Int) (ks₁ : List String) (k : String)
        (ks₂ : List String),
      env.search k = none →
      searchChannelsCore env minS maxS (ks₁ ++ k :: ks₂) =
        searchChannelsCore env minS maxS (ks₁ ++ ks₂)) ∧
    (∀ (env : SearchEnv) (minS maxS : Int) (keyword : String) (chats₁ : List Chat)
        (c : Chat) (chats₂ : List Chat) (acc : SearchAcc),
      env.getFull c = none →
      (chats₁ ++ c :: chats₂).foldl (stepChat env minS maxS keyword) acc =
        (chats₁ ++ chats₂).foldl (stepChat env minS maxS keyword) acc) := by
  refine ⟨?_, ?_, ?_, ?_, ?_⟩
  · exact fun env sessions req ks client hks hne hlk hc =>
      searchChannelsHandler_connected env sessions req ks client hks hne hlk hc
  · intro env sessions req h
    unfold searchChannelsHandler
    rcases h with h | h <;> rw [h]
    rfl
  · intro env sessions req ks hks hne hcl
    unfold searchChannelsHandler
    rw [hks]
    cases ks with
    | nil => exact absurd rfl hne
    | cons k rest =>
      cases hl : lookupSession sessions (mkSessionKey req.phoneNumber req.apiId) with
      | none => rfl
      | some client => simp [hcl client hl]
  · intro env minS maxS ks₁ k ks₂ hk
    unfold searchChannelsCore
    rw [List.foldl_append, List.foldl_append, List.foldl_cons,
      stepKeyword_search_none hk]
  · intro env minS maxS keyword chats₁ c chats₂ acc hc
    rw [List.foldl_append, List.foldl_append, List.foldl_cons,
      stepChat_getFull_none hc]

/-- Concrete instances of C7: an environment whose first keyword search
throws and whose metadata calls for chat id 9 throw still produces the
200 success; the degenerate inputs produce the 400/401; and the two
skipping equations at concrete lists. -/
theorem search_partial_failure_tolerance_witness :
    searchChannelsHandler
        (SearchEnv.mk (fun k => if k = "crypto" then none
            else some [⟨7, "Channel", false, "News", some "news", false⟩,
              ⟨9, "Channel", false, "Other", none, false⟩])
          (fun chat => if chat.id = 9 then none
            else some ⟨some 2500, none, none⟩))
        [("+15550001111_12345", ⟨true, true⟩)]
        { keywords := some ["crypto", "news"], minSubscribers := 1000
          maxSubscribers := 5000, apiId := some "12345"
          phoneNumber := some "+15550001111" } =
      .searchOk
        (searchChannelsCore
          (SearchEnv.mk (fun k => if k = "crypto" then none
              else some [⟨7, "Channel", false, "News", some "news", false⟩,
                ⟨9, "Channel", false, "Other", none, false⟩])
            (fun chat => if chat.id = 9 then none
              else some ⟨some 2500, none, none⟩))
          1000 5000 ["crypto", "news"])
        (searchChannelsCore
          (SearchEnv.mk (fun k => if k = "crypto" then none
              else some [⟨7, "Channel", false, "News", some "news", false⟩,
                ⟨9, "Channel", false, "Other", none, false⟩])
            (fun chat => if chat.id = 9 then none
              else some ⟨some 2500, none, none⟩))
          1000 5000 ["crypto", "news"]).length ∧
    searchChannelsHandler (SearchEnv.mk (fun _ => none) (fun _ => none)) []
        { keywords := some [], minSubscribers := 0, maxSubscribers := 0
          apiId := none, phoneNumber := none } =
      .badRequest "Keywords are required" ∧
    searchChannelsHandler (SearchEnv.mk (fun _ => none) (fun _ => none)) []
        { keywords := some ["news"], minSubscribers := 0, maxSubscribers := 0
          apiId := none, phoneNumber := none } =
      .unauthorized "Not connected to Telegram. Please connect first." ∧
    searchChannelsCore (SearchEnv.mk (fun _ => none) (fun _ => none)) 0 10
        (["a"] ++ "b" :: ["c"]) =
      searchChannelsCore (SearchEnv.mk (fun _ => none) (fun _ => none)) 0 10
        (["a"] ++ ["c"]) ∧
    ([] ++ (⟨9, "Channel", false, "Other", none, false⟩ : Chat) :: []).foldl
        (stepChat (SearchEnv.mk (fun _ => none) (fun _ => none)) 0 10 "x") ⟨[], []⟩ =
      (([] ++ []) : List Chat).foldl
        (stepChat (SearchEnv.mk (fun _ => none) (fun _ => none)) 0 10 "x") ⟨[], []⟩ := by
  refine ⟨?_, ?_, ?_, ?_, ?_⟩
  · exact search_partial_failure_tolerance.1 _ _ _ ["crypto", "news"] ⟨true, true⟩
      rfl (by decide) (by decide) rfl
  · exact search_partial_failure_tolerance.2.1 _ _ _ (Or.inr rfl)
  · exact search_partial_failure_tolerance.2.2.1 _ _ _ ["news"] rfl (by decide)
      (fun client h => by cases h)
  · exact search_partial_failure_tolerance.2.2.2.1 _ 0 10 ["a"] "b" ["c"] rfl
  · exact search_partial_failure_tolerance.2.2.2.2 _ 0 10 "x" [] _ [] ⟨[], []⟩ rfl

/-! ## The recurring commenter (src/server.js:317-397)

`POST /api/comment` sets the global flag `commentingActive` and launches
an async loop (src/server.js:336-371):

while the flag holds, iterate over `channelLinks`; before each channel
re-check the flag and break when cleared; otherwise run the try-block
(resolve, fetch messages, maybe send the comment) and then sleep for the
pacing interval, success or failure alike.  `POST /api/stop-commenting`
(src/server.js:389-397) clears the flag.

One loop instance is a labelled transition system.  Positions in the
loop body are phases: `wcheck` is the `while (commentingActive)` test,
`fcheck` the per-channel `if (!commentingActive) break`, `work` the
try-block of the current channel, `sleepPh` the pacing sleep, `exited`
loop termination. -/

inductive LoopPhase where
  | wcheck
  | fcheck
  | work
  | sleepPh
  | exited
deriving Repr, DecidableEq

structure LoopState where
  /-- channels still to visit in the current pass -/
  remaining : List String
  /-- the request's `channelLinks`, re-scanned every pass -/
  channelLinks : List String
  /-- current position in the loop body -/
  phase : LoopPhase
  /-- the global `commentingActive` flag -/
  active : Bool
deriving Repr, DecidableEq

inductive LoopLabel where
  /-- `/api/stop-commenting` clears the flag (may happen at any time) -/
  | stop
  /-- `while (commentingActive)` observed true: start a pass -/
  | whileTrue
  /-- `while (commentingActive)` observed false: exit -/
  | whileFalse
  /-- `if (!commentingActive)` observed the flag still set -/
  | checkTrue
  /-- `if (!commentingActive) break` observed the cleared flag -/
  | checkFalse
  /-- try-block of one channel ran and the comment call succeeded -/
  | workOk (link : String)
  /-- try-block of one channel threw; the error is logged and swallowed -/
  | workErr (link : String)
  /-- the pacing sleep after a channel, taken regardless of outcome -/
  | sleepL
deriving Repr, DecidableEq

/-- Small-step semantics of one commenter loop instance.  The try-block
(`work`) does not consult the flag — only the two check points do, which
is exactly the promptness granularity of the source. -/
inductive LoopStep : LoopState → LoopLabel → LoopState → Prop where
  | stop (s : LoopState) :
      LoopStep s .stop { s with active := false }
  | whileTrue (s : LoopState) (h : s.phase = .wcheck) (ha : s.active = true) :
      LoopStep s .whileTrue
        { s with remaining := s.channelLinks
                 phase := if s.channelLinks = [] then .wcheck else .fcheck }
  | whileFalse (s : LoopState) (h : s.phase = .wcheck) (ha : s.active = false) :
      LoopStep s .whileFalse { s with phase := .exited }
  | checkTrue (s : LoopState) (h : s.phase = .fcheck) (ha : s.active = true) :
      LoopStep s .checkTrue { s with phase := .work }
  | checkFalse (s : LoopState) (h : s.phase = .fcheck) (ha : s.active = false) :
      LoopStep s .checkFalse { s with phase := .wcheck }
  | workOk (s : LoopState) (c : String) (r : List String)
      (h : s.phase = .work) (hr : s.remaining = c :: r) :
      LoopStep s (.workOk c) { s with phase := .sleepPh }
  | workErr (s : LoopState) (c : String) (r : List String)
      (h : s.phase = .work) (hr : s.remaining = c :: r) :
      LoopStep s (.workErr c) { s with phase := .sleepPh }
  | sleepStep (s : LoopState) (c : String) (r : List String)
      (h : s.phase = .sleepPh) (hr : s.remaining = c :: r) :
      LoopStep s .sleepL
        { s with remaining := r
                 phase := if r = [] then .wcheck else .fcheck }

/-- Finite executions, recording the emitted labels. -/
inductive LoopTrace : LoopState → List LoopLabel → LoopState → Prop where
  | nil (s : LoopState) : LoopTrace s [] s
  | cons {s m s' : LoopState} {l : LoopLabel} {ls : List LoopLabel}
      (st : LoopStep s l m) (tr : LoopTrace m ls s') : LoopTrace s (l :: ls) s'

def isWorkLabel : LoopLabel → Bool
  | .workOk _ => true
  | .workErr _ => true
  | _ => false

def isSleepLabel : LoopLabel → Bool
  | .sleepL => true
  | _ => false

def isStopLabel : LoopLabel → Bool
  | .stop => true
  | _ => false

/-- First label of a trace suffix that is not a `stop` signal. -/
def firstNonStop : List LoopLabel → Option LoopLabel
  | [] => none
  | l :: ls => if isStopLabel l then firstNonStop ls else some l

/-- How many more try-blocks can run once the flag is down: one iff the
loop is currently inside a try-block. -/
def workBudget (s : LoopState) : Nat :=
  match s.phase with
  | .work => 1
  | _ => 0

/-- How many more pacing sleeps can run once the flag is down. -/
def sleepBudget (s : LoopState) : Nat :=
  match s.phase with
  | .work => 1
  | .sleepPh => 1
  | _ => 0

lemma workBudget_set_active (s : LoopState) (b : Bool) :
    workBudget { s with active := b } = workBudget s := rfl

lemma sleepBudget_set_active (s : LoopState) (b : Bool) :
    sleepBudget { s with active := b } = sleepBudget s := rfl

lemma loopStep_inactive {s s' : LoopState} {l : LoopLabel}
    (hs : s.active = false) (st : LoopStep s l s') :
    s'.active = false ∧
    (if isWorkLabel l then 1 else 0) + workBudget s' ≤ workBudget s ∧
    (if isSleepLabel l then 1 else 0) + sleepBudget s' ≤ sleepBudget s := by
  cases st with
  | stop =>
    exact ⟨rfl, by simp [isWorkLabel, workBudget_set_active],
      by simp [isSleepLabel, sleepBudget_set_active]⟩
  | whileTrue h ha => rw [hs] at ha; cases ha
  | whileFalse h ha =>
    exact ⟨hs, by simp [isWorkLabel, workBudget, h], by simp [isSleepLabel, sleepBudget, h]⟩
  | checkTrue h ha => rw [hs] at ha; cases ha
  | checkFalse h ha =>
    exact ⟨hs, by simp [isWorkLabel, workBudget, h], by simp [isSleepLabel, sleepBudget, h]⟩
  | workOk c r h hr =>
    exact ⟨hs, by simp [isWorkLabel, workBudget, h], by simp [isSleepLabel, sleepBudget, h]⟩
  | workErr c r h hr =>
    exact ⟨hs, by simp [isWorkLabel, workBudget, h], by simp [isSleepLabel, sleepBudget, h]⟩
  | sleepStep c r h hr =>
    refine ⟨hs, ?_, ?_⟩
    · cases r <;> simp [isWorkLabel, workBudget, h]
    · cases r <;> simp [isSleepLabel, sleepBudget, h]

lemma loopTrace_inactive_counts {s s' : LoopState} {ls : List LoopLabel}
    (tr : LoopTrace s ls s') (hs : s.active = false) :
    ls.countP isWorkLabel ≤ workBudget s ∧ ls.countP isSleepLabel ≤ sleepBudget s := by
  induction tr with
  | nil s => simp
  | cons st tr ih =>
    obtain ⟨ha, hw, hsl⟩ := loopStep_inactive hs st
    obtain ⟨ihw, ihs⟩ := ih ha
    rw [List.countP_cons, List.countP_cons]
    constructor
    · by_cases hb : isWorkLabel ‹LoopLabel› = true
      all_goals simp [hb] at hw ⊢
      all_goals omega
    · by_cases hb : isSleepLabel ‹LoopLabel› = true
      all_goals simp [hb] at hsl ⊢
      all_goals omega

lemma loopTrace_append {s s'' : LoopState} (as : List LoopLabel) {bs : List LoopLabel}
    (tr : LoopTrace s (as ++ bs) s'') :
    ∃ m, LoopTrace s as m ∧ LoopTrace m bs s'' := by
  induction as generalizing s with
  | nil => exact ⟨s, .nil s, tr⟩
  | cons a as ih =>
    cases tr with
    | cons st tr' =>
      obtain ⟨m, t1, t2⟩ := ih tr'
      exact ⟨m, .cons st t1, t2⟩

/-- After a try-block the next thing the loop itself does is the pacing
sleep: from `sleepPh`, apart from external stop signals, only `sleepL`
can fire, and the loop cannot exit without passing it. -/
lemma sleepPh_first_non_stop {s s' : LoopState} {ls : List LoopLabel}
    (tr : LoopTrace s ls s') (h : s.phase = .sleepPh) (hx : s'.phase = .exited) :
    firstNonStop ls = some .sleepL := by
  induction tr with
  | nil s => rw [h] at hx; cases hx
  | cons st tr ih =>
    cases st with
    | stop => exact ih h hx
    | whileTrue hp ha => rw [h] at hp; cases hp
    | whileFalse hp ha => rw [h] at hp; cases hp
    | checkTrue hp ha => rw [h] at hp; cases hp
    | checkFalse hp ha => rw [h] at hp; cases hp
    | workOk c r hp hr => rw [h] at hp; cases hp
    | workErr c r hp hr => rw [h] at hp; cases hp
    | sleepStep c r hp hr => rfl

lemma workBudget_le_one (s : LoopState) : workBudget s ≤ 1 := by
  unfold workBudget
  split <;> omega

lemma sleepBudget_le_one (s : LoopState) : sleepBudget s ≤ 1 := by
  unfold sleepBudget
  split <;> omega

/-! ### Claim C6 -/

/-- Claim C6: cancellation promptness of the comment loop.  In every
execution of one loop instance: (1) after the per-channel check observes
the cleared flag (`checkFalse`, the `break` of src/server.js:339) no
further try-block — in particular no comment-send call — runs; (2) after
a stop signal at most one further try-block and at most one further
pacing sleep occur, i.e. the loop exits within one per-channel pacing
interval; (3) and (4): every try-block, successful or failing, is
immediately followed (external stop signals aside) by the pacing sleep
(src/server.js:368 lies outside the try/catch). -/
theorem commenter_cancellation_prompt :
    (∀ (s s' : LoopState) (ls₁ ls₂ : List LoopLabel),
      LoopTrace s (ls₁ ++ LoopLabel.checkFalse :: ls₂) s' →
      ls₂.countP isWorkLabel = 0) ∧
    (∀ (s s' : LoopState) (ls₁ ls₂ : List LoopLabel),
      LoopTrace s (ls₁ ++ LoopLabel.stop :: ls₂) s' →
      ls₂.countP isWorkLabel ≤ 1 ∧ ls₂.countP isSleepLabel ≤ 1) ∧
    (∀ (s s' : LoopState) (ls₁ ls₂ : List LoopLabel) (c : String),
      LoopTrace s (ls₁ ++ LoopLabel.workOk c :: ls₂) s' → s'.phase = .exited →
      firstNonStop ls₂ = some .sleepL) ∧
    (∀ (s s' : LoopState) (ls₁ ls₂ : List LoopLabel) (c : String),
      LoopTrace s (ls₁ ++ LoopLabel.workErr c :: ls₂) s' → s'.phase = .exited →
      firstNonStop ls₂ = some .sleepL) := by
  refine ⟨?_, ?_, ?_, ?_⟩
  · intro s s' ls₁ ls₂ tr
    obtain ⟨m, t1, t2⟩ := loopTrace_append ls₁ tr
    cases t2 with
    | cons st tr' =>
      cases st with
      | checkFalse hp ha =>
        have hcnt := loopTrace_inactive_counts tr' ha
        have h0 : workBudget { m with phase := LoopPhase.wcheck } = 0 := rfl
        omega
  · intro s s' ls₁ ls₂ tr
    obtain ⟨m, t1, t2⟩ := loopTrace_append ls₁ tr
    cases t2 with
    | cons st tr' =>
      cases st with
      | stop =>
        have hcnt := loopTrace_inactive_counts tr' rfl
        have hw := workBudget_le_one { m with active := false }
        have hsl := sleepBudget_le_one { m with active := false }
        omega
  · intro s s' ls₁ ls₂ c tr hx
    obtain ⟨m, t1, t2⟩ := loopTrace_append ls₁ tr
    cases t2 with
    | cons st tr' =>
      cases st with
      | workOk c' r hp hr => exact sleepPh_first_non_stop tr' rfl hx
  · intro s s' ls₁ ls₂ c tr hx
    obtain ⟨m, t1, t2⟩ := loopTrace_append ls₁ tr
    cases t2 with
    | cons st tr' =>
      cases st with
      | workErr c' r hp hr => exact sleepPh_first_non_stop tr' rfl hx

/-- Concrete instance of C6: a run over channels `a`, `b`, `c` that
comments `a`, fails on `b`, receives the stop mid-sleep, and exits at
the next check without touching `c`. -/
theorem commenter_cancellation_prompt_witness :
    ([LoopLabel.whileFalse].countP isWorkLabel = 0) ∧
    ([LoopLabel.sleepL, LoopLabel.checkFalse, LoopLabel.whileFalse].countP isWorkLabel ≤ 1 ∧
      [LoopLabel.sleepL, LoopLabel.checkFalse, LoopLabel.whileFalse].countP isSleepLabel ≤ 1) ∧
    firstNonStop [LoopLabel.sleepL, LoopLabel.checkTrue, LoopLabel.workErr "b",
      LoopLabel.stop, LoopLabel.sleepL, LoopLabel.checkFalse, LoopLabel.whileFalse] =
      some LoopLabel.sleepL ∧
    firstNonStop [LoopLabel.stop, LoopLabel.sleepL, LoopLabel.checkFalse,
      LoopLabel.whileFalse] = some LoopLabel.sleepL := by
  have tr : LoopTrace ⟨["a", "b", "c"], ["a", "b", "c"], .wcheck, true⟩
      [.whileTrue, .checkTrue, .workOk "a", .sleepL, .checkTrue, .workErr "b",
        .stop, .sleepL, .checkFalse, .whileFalse]
      ⟨["c"], ["a", "b", "c"], .exited, false⟩ :=
    LoopTrace.cons (.whileTrue _ rfl rfl)
      (LoopTrace.cons (.checkTrue _ rfl rfl)
        (LoopTrace.cons (.workOk _ "a" ["b", "c"] rfl rfl)
          (LoopTrace.cons (.sleepStep _ "a" ["b", "c"] rfl rfl)
            (LoopTrace.cons (.checkTrue _ rfl rfl)
              (LoopTrace.cons (.workErr _ "b" ["c"] rfl rfl)
                (LoopTrace.cons (.stop _)
                  (LoopTrace.cons (.sleepStep _ "b" ["c"] rfl rfl)
                    (LoopTrace.cons (.checkFalse _ rfl rfl)
                      (LoopTrace.cons (.whileFalse _ rfl rfl)
                        (.nil _))))))))))
  refine ⟨?_, ?_, ?_, ?_⟩
  · exact commenter_cancellation_prompt.1 _ _
      [.whileTrue, .checkTrue, .workOk "a", .sleepL, .checkTrue, .workErr "b",
        .stop, .sleepL] [.whileFalse] tr
  · exact commenter_cancellation_prompt.2.1 _ _
      [.whileTrue, .checkTrue, .workOk "a", .sleepL, .checkTrue, .workErr "b"]
      [.sleepL, .checkFalse, .whileFalse] tr
  · exact commenter_cancellation_prompt.2.2.1 _ _
      [.whileTrue, .checkTrue]
      [.sleepL, .checkTrue, .workErr "b", .stop, .sleepL, .checkFalse, .whileFalse]
      "a" tr rfl
  · exact commenter_cancellation_prompt.2.2.2 _ _
      [.whileTrue, .checkTrue, .workOk "a", .sleepL, .checkTrue]
      [.stop, .sleepL, .checkFalse, .whileFalse] "b" tr rfl

/-! ## Claim C2: the start/stop job-count system

`POST /api/comment` (src/server.js:320-386) sets `commentingActive :=
true` and launches a fresh loop instance — without checking whether one
is already running.  `POST /api/stop-commenting` clears the flag.  A
loop instance terminates only after observing the cleared flag at one of
its check points.  We count running loop instances. -/

structure CommenterState where
  commentingActive : Bool
  activeLoops : Nat
deriving Repr, DecidableEq

inductive CommenterStep : CommenterState → CommenterState → Prop where
  /-- `/api/comment` on a connected session: set the flag, spawn a loop
  (src/server.js:333-371) -/
  | startJob (s : CommenterState) : CommenterStep s ⟨true, s.activeLoops + 1⟩
  /-- `/api/stop-commenting`: clear the flag (src/server.js:390) -/
  | stopJob (s : CommenterState) : CommenterStep s ⟨false, s.activeLoops⟩
  /-- a running loop observes the cleared flag and exits -/
  | loopExit (s : CommenterState) (ha : s.commentingActive = false)
      (hn : 0 < s.activeLoops) : CommenterStep s ⟨false, s.activeLoops - 1⟩

/-- States reachable from process start (flag down, no loop). -/
inductive CommenterReachable : CommenterState → Prop where
  | init : CommenterReachable ⟨false, 0⟩
  | step {s s' : CommenterState} (h : CommenterReachable s)
      (st : CommenterStep s s') : CommenterReachable s'

/-- Claim C2 as stated is false: two `/api/comment` requests in a row
reach a state with two concurrently running comment loops — the handler
never checks whether a loop is already active before spawning another
(src/server.js:333-336). -/
theorem double_start_breaks_single_flight :
    ¬ (∀ s, CommenterReachable s → s.activeLoops ≤ 1) := by
  intro h
  have h2 : CommenterReachable ⟨true, 2⟩ :=
    CommenterReachable.step
      (CommenterReachable.step CommenterReachable.init (CommenterStep.startJob _))
      (CommenterStep.startJob _)
  exact absurd (h _ h2) (by decide)

/-- Reachability when `/api/comment` is only ever issued while no loop
is running (the usage discipline the claim presupposes). -/
inductive GuardedCommenterReachable : CommenterState → Prop where
  | init : GuardedCommenterReachable ⟨false, 0⟩
  | startJob {s : CommenterState} (h : GuardedCommenterReachable s)
      (hz : s.activeLoops = 0) : GuardedCommenterReachable ⟨true, s.activeLoops + 1⟩
  | stopJob {s : CommenterState} (h : GuardedCommenterReachable s) :
      GuardedCommenterReachable ⟨false, s.activeLoops⟩
  | loopExit {s : CommenterState} (h : GuardedCommenterReachable s)
      (ha : s.commentingActive = false) (hn : 0 < s.activeLoops) :
      GuardedCommenterReachable ⟨false, s.activeLoops - 1⟩

/-- Claim C2, amended: each `/api/comment` spawns its own loop, so
overlapping starts yield several concurrent loops; restricted to
executions in which a job is only started while no loop is active, at
most one commenting loop runs process-wide at every reachable state. -/
theorem guarded_commenter_single_flight (s : CommenterState)
    (h : GuardedCommenterReachable s) : s.activeLoops ≤ 1 := by
  induction h with
  | init => decide
  | startJob h hz ih =>
    show _ + 1 ≤ 1
    omega
  | stopJob h ih => exact ih
  | loopExit h ha hn ih =>
    show _ - 1 ≤ 1
    omega

/-- Concrete instance of the amended C2: one start from the initial
state leaves exactly one loop. -/
theorem guarded_commenter_single_flight_witness :
    (⟨true, 1⟩ : CommenterState).activeLoops ≤ 1 :=
  guarded_commenter_single_flight ⟨true, 1⟩
    (GuardedCommenterReachable.startJob GuardedCommenterReachable.init rfl)

/-! ## Claim C10: POST /api/stop-commenting (src/server.js:389-397) -/

structure StopResponse where
  success : Bool
  message : String
deriving Repr, DecidableEq

/-- The `/api/stop-commenting` handler: no guards, no body fields read —
it clears the flag and reports success. -/
def stopCommentingHandler (s : CommenterState) : CommenterState × StopResponse :=
  ({ s with commentingActive := false },
    { success := true, message := "Commenting stopped" })

/-- Claim C10: `/api/stop-commenting` is total and idempotent — from
every state, including ones where no job ever ran, it clears the active
flag, answers `success:true` with the message, and running it twice
equals running it once. -/
theorem stop_commenting_total_idempotent (s : CommenterState) :
    (stopCommentingHandler s).1.commentingActive = false ∧
    (stopCommentingHandler s).2 =
      { success := true, message := "Commenting stopped" } ∧
    stopCommentingHandler (stopCommentingHandler s).1 = stopCommentingHandler s :=
  ⟨rfl, rfl, rfl⟩
